import Mathlib

/-!
Shallow embedding of the inventory_api backend (FastAPI + SQLAlchemy).

The database is a value of type `DB` (four tables as lists); each service
function from app/services/inventory_service.py is embedded as a pure
function `DB → ... → DB × Except ServiceError α`, where the returned `DB`
is the state after the call, including effects that the source committed
before raising (a Python exception does not roll back an earlier
`db.commit()`).

Identifiers (UUID columns) are embedded as `Nat`: only equality on them is
ever used.  `price` is a Python float that is only stored and copied on the
paths below, never computed with, so it is embedded as `Rat`.  Wall-clock
time is embedded as seconds (`Nat`); `timedelta(minutes=m)` becomes
`m * 60`.  Password hashing and JWT signing are external collaborators:
hash verification is a function parameter `verify`, and a signed JWT is a
record carrying its payload and signing key.
-/

namespace InventoryApi

/-- Row of the users table (app/database/models.py, class User); `password`
holds the stored hash. -/
structure User where
  id : Nat
  name : String
  email : String
  password : String
deriving Repr, DecidableEq

/-- Row of the categories table (app/database/models.py, class Category). -/
structure Category where
  id : Nat
  name : String
  description : Option String
deriving Repr, DecidableEq

/-- Row of the products table (app/database/models.py, class Product). -/
structure Product where
  id : Nat
  name : String
  description : Option String
  price : Rat
  stock_quantity : Int
  image_url : Option String
  category_id : Nat
  user_id : Nat
deriving Repr, DecidableEq

/-- Row of the inventory_transactions table (models.py lines 77-95): its
only mapped columns are id, product_id, type, quantity, date_transaction
and description.  There is no user_id column, although the service
constructor call passes one; that mismatch is a TypeError at construction
time, modelled in create_inventory_transaction below. -/
structure InventoryTransaction where
  id : Nat
  product_id : Nat
  type : String
  quantity : Int
  description : Option String
deriving Repr, DecidableEq

/-- The persistent store: the four relational tables. -/
structure DB where
  users : List User
  categories : List Category
  products : List Product
  transactions : List InventoryTransaction
deriving Repr, DecidableEq

/-- Pydantic schema ProductCreate (app/schemas/item_schemas.py). -/
structure ProductCreate where
  name : String
  description : Option String
  price : Rat
  stock_quantity : Int
  image_url : Option String
  category_id : Nat
  user_id : Nat
deriving Repr, DecidableEq

/-- The Field constraints pydantic enforces on ProductCreate before the
service sees the data: price gt=0, stock_quantity gt=0. -/
def ProductCreate.validated (p : ProductCreate) : Bool :=
  decide (0 < p.price) && decide (0 < p.stock_quantity)

/-- Pydantic schema InventoryTransactionCreate: `type` is a plain `str`
field, not an enumeration. -/
structure InventoryTransactionCreate where
  product_id : Nat
  type : String
  quantity : Int
  description : Option String
deriving Repr, DecidableEq

/-- The Field constraint pydantic enforces on InventoryTransactionCreate:
quantity gt=0.  `type` is unconstrained. -/
def InventoryTransactionCreate.validated (t : InventoryTransactionCreate) : Bool :=
  decide (0 < t.quantity)

/-- Pydantic schema CategoryCreate. -/
structure CategoryCreate where
  name : String
  description : Option String
deriving Repr, DecidableEq

/-- The errors the service layer raises: a deliberate Python
`ValueError(msg)`, or the `TypeError(msg)` that SQLAlchemy's declarative
constructor raises when a keyword names no mapped attribute. -/
inductive ServiceError where
  | valueError (msg : String)
  | typeError (msg : String)
deriving Repr, DecidableEq

/-- `db.query(Product).filter(Product.id == pid).first()`. -/
def DB.findProduct (db : DB) (pid : Nat) : Option Product :=
  db.products.find? (fun p => p.id == pid)

/-- `db.query(Category).filter(Category.id == cid).first()`. -/
def DB.findCategory (db : DB) (cid : Nat) : Option Category :=
  db.categories.find? (fun c => c.id == cid)

/-- `db.query(User).filter(User.email == email).first()`. -/
def DB.findUserByEmail (db : DB) (email : String) : Option User :=
  db.users.find? (fun u => u.email == email)

/-- Committing a new value for a loaded product row: the UPDATE writes the
row with the given id. -/
def DB.writeProduct (db : DB) (pid : Nat) (p : Product) : DB :=
  { db with products := db.products.map (fun q => if q.id == pid then p else q) }

/-- Stock of the product row the service would load for `pid`. -/
def DB.stockOf (db : DB) (pid : Nat) : Option Int :=
  (db.findProduct pid).map (fun p => p.stock_quantity)

/-- create_product (inventory_service.py lines 14-48): checks that the
category exists, then inserts the product.  `new_id` stands for the id the
store assigns to the inserted row. -/
def create_product (db : DB) (product : ProductCreate) (user_id : Nat) (new_id : Nat) :
    DB × Except ServiceError Product :=
  match db.findCategory product.category_id with
  | none => (db, .error (.valueError "Category not found"))
  | some _ =>
    let new_product : Product :=
      { id := new_id
        name := product.name
        description := product.description
        price := product.price
        stock_quantity := product.stock_quantity
        image_url := product.image_url
        category_id := product.category_id
        user_id := user_id }
    ({ db with products := db.products ++ [new_product] }, .ok new_product)

/-- update_product (inventory_service.py lines 80-110): loads the product by
id, raises ValueError if absent, otherwise overwrites every mutable field
with the supplied values and commits.  No category lookup occurs. -/
def update_product (db : DB) (product_id : Nat) (product : ProductCreate) :
    DB × Except ServiceError Product :=
  match db.findProduct product_id with
  | none => (db, .error (.valueError "Product not found"))
  | some db_product =>
    let updated : Product :=
      { db_product with
        name := product.name
        description := product.description
        price := product.price
        stock_quantity := product.stock_quantity
        image_url := product.image_url
        category_id := product.category_id }
    (db.writeProduct product_id updated, .ok updated)

/-- delete_product (inventory_service.py lines 113-134). -/
def delete_product (db : DB) (product_id : Nat) : DB × Except ServiceError Product :=
  match db.findProduct product_id with
  | none => (db, .error (.valueError "Product not found"))
  | some db_product =>
    ({ db with products := db.products.eraseP (fun q => q.id == product_id) },
     .ok db_product)

/-- create_inventory_transaction (inventory_service.py lines 137-183).
After the product-existence check, line 161 constructs
InventoryTransaction(product_id=..., type=..., quantity=..., description=...,
user_id=user_id).  The inventory_transactions model (models.py lines 77-95)
declares no user_id attribute, and SQLAlchemy's declarative constructor
raises TypeError for a keyword that is not a mapped attribute.  That raise
happens before db.add (line 168), so whenever the product exists the call
fails with the TypeError, no row is inserted, no stock is adjusted, and the
remainder of the function (lines 168-183, including the entry/exit stock
logic and the insufficient-stock ValueError) is unreachable.  `txn_id`
stands for the row id the store would have assigned. -/
def create_inventory_transaction (db : DB) (product_id : Nat)
    (_transaction : InventoryTransactionCreate) (_user_id : Nat) (_txn_id : Nat) :
    DB × Except ServiceError InventoryTransaction :=
  match db.findProduct product_id with
  | none => (db, .error (.valueError "Product not found"))
  | some _db_product =>
    (db, .error (.typeError
      "user_id is an invalid keyword argument for InventoryTransaction"))

/-- A SQLAlchemy Query value: the filter has been attached but nothing has
been fetched. `rows` is what iterating the query would yield. -/
structure Query (α : Type) where
  rows : List α
deriving Repr, DecidableEq

/-- Python truthiness of a Query object: SQLAlchemy Query defines neither
a boolean conversion nor a length, so `bool(query)` is always True. -/
def Query.pyTruthy {α : Type} (_q : Query α) : Bool :=
  true

/-- get_inventory_transaction (inventory_service.py lines 210-228): builds
the filtered query and returns it; no terminal call (`.first()`) is made. -/
def get_inventory_transaction (db : DB) (product_id : Nat) (transaction_id : Nat) :
    Query InventoryTransaction :=
  { rows := db.transactions.filter
      (fun t => t.product_id == product_id && t.id == transaction_id) }

/-- update_category (inventory_service.py lines 291-317). -/
def update_category (db : DB) (category_id : Nat) (category : CategoryCreate) :
    DB × Except ServiceError Category :=
  match db.findCategory category_id with
  | none => (db, .error (.valueError "Category not found"))
  | some db_category =>
    let updated : Category :=
      { db_category with name := category.name, description := category.description }
    ({ db with categories := db.categories.map (fun c => if c.id == category_id then updated else c) },
     .ok updated)

/-- delete_category (inventory_service.py lines 320-341). -/
def delete_category (db : DB) (category_id : Nat) : DB × Except ServiceError Category :=
  match db.findCategory category_id with
  | none => (db, .error (.valueError "Category not found"))
  | some db_category =>
    ({ db with categories := db.categories.eraseP (fun c => c.id == category_id) },
     .ok db_category)

/-- A FastAPI HTTPException: status code and detail string. -/
structure HttpError where
  status_code : Nat
  detail : String
deriving Repr, DecidableEq

/-- A signed JWT as jose produces it: the string claims of the payload, the
numeric `exp` claim (seconds), and the key it was signed with.  Decoding
with a key succeeds exactly when the key matches and `exp` is in the
future. -/
structure Jwt where
  claims : List (String × String)
  exp : Nat
  key : String
deriving Repr, DecidableEq

/-- authenticate_user (app/utils/auth.py lines 55-70).  `verify` is the
bcrypt verifier `verify_password`, an external collaborator. -/
def authenticate_user (verify : String → String → Bool) (db : DB)
    (email : String) (password : String) : Option User :=
  match db.findUserByEmail email with
  | none => none
  | some user => if !(verify password user.password) then none else some user

/-- create_access_token (app/utils/auth.py lines 73-91): expiry is
`now + expires_delta` when a delta is supplied, else `now + 15 minutes`;
the payload is data plus the exp claim, signed with the secret key. -/
def create_access_token (secret_key : String) (data : List (String × String))
    (now : Nat) (expires_delta : Option Nat) : Jwt :=
  let expire : Nat :=
    match expires_delta with
    | some d => now + d
    | none => now + 15 * 60
  { claims := data, exp := expire, key := secret_key }

/-- login_for_access_token (app/api/v1/auth.py lines 59-92): authenticates,
answering 401 with one fixed message on any failure, and otherwise issues a
token with subject the user's email and an explicit 30-minute expiry. -/
def login_for_access_token (secret_key : String) (verify : String → String → Bool)
    (db : DB) (username : String) (password : String) (now : Nat) :
    Except HttpError Jwt :=
  match authenticate_user verify db username password with
  | none => .error { status_code := 401, detail := "Incorrect email or password" }
  | some user =>
    let access_token_expires : Nat := 30 * 60
    .ok (create_access_token secret_key [("sub", user.email)] now (some access_token_expires))

/-- The 401 raised by get_current_user on any resolution failure. -/
def credentials_exception : HttpError :=
  { status_code := 401, detail := "Unable to validate credentials" }

/-- get_current_user (app/utils/auth.py lines 94-126): decode (signature
key must match, token must be unexpired), extract the sub claim, and load
the user by that email; any failure is the one credentials exception. -/
def get_current_user (secret_key : String) (db : DB) (token : Jwt) (now : Nat) :
    Except HttpError User :=
  if token.key == secret_key && decide (now < token.exp) then
    match token.claims.lookup "sub" with
    | none => .error credentials_exception
    | some email =>
      match db.findUserByEmail email with
      | none => .error credentials_exception
      | some user => .ok user
  else
    .error credentials_exception

/-- The Depends chain on an endpoint that declares a current_user: the
oauth2 scheme answers 401 when no bearer token is presented, and otherwise
get_current_user resolves it. -/
def resolve_user (secret_key : String) (db : DB) (token : Option Jwt) (now : Nat) :
    Except HttpError User :=
  match token with
  | none => .error { status_code := 401, detail := "Not authenticated" }
  | some t => get_current_user secret_key db t now

/-- Endpoint POST /products/ (app/api/v1/inventory.py lines 35-62): gated
by get_current_user; a service ValueError becomes a 400. -/
def create_new_product (secret_key : String) (db : DB) (token : Option Jwt) (now : Nat)
    (product : ProductCreate) (new_id : Nat) : DB × Except HttpError Product :=
  match resolve_user secret_key db token now with
  | .error e => (db, .error e)
  | .ok current_user =>
    match create_product db product current_user.id new_id with
    | (db2, .ok p) => (db2, .ok p)
    | (db2, .error (.valueError m)) => (db2, .error { status_code := 400, detail := m })
    | (db2, .error (.typeError _)) =>
      (db2, .error { status_code := 500, detail := "An unknown error occurred." })

/-- Endpoint PUT /products/{product_id} (inventory.py lines 113-142): gated
by get_current_user; a service ValueError becomes a 404. -/
def update_existing_product (secret_key : String) (db : DB) (token : Option Jwt) (now : Nat)
    (product_id : Nat) (product : ProductCreate) : DB × Except HttpError Product :=
  match resolve_user secret_key db token now with
  | .error e => (db, .error e)
  | .ok _current_user =>
    match update_product db product_id product with
    | (db2, .ok p) => (db2, .ok p)
    | (db2, .error (.valueError m)) => (db2, .error { status_code := 404, detail := m })
    | (db2, .error (.typeError _)) =>
      (db2, .error { status_code := 500, detail := "An unknown error occurred." })

/-- Endpoint DELETE /products/{product_id} (inventory.py lines 145-172):
gated by get_current_user; a service ValueError becomes a 404. -/
def delete_existing_product (secret_key : String) (db : DB) (token : Option Jwt) (now : Nat)
    (product_id : Nat) : DB × Except HttpError Product :=
  match resolve_user secret_key db token now with
  | .error e => (db, .error e)
  | .ok _current_user =>
    match delete_product db product_id with
    | (db2, .ok p) => (db2, .ok p)
    | (db2, .error (.valueError m)) => (db2, .error { status_code := 404, detail := m })
    | (db2, .error (.typeError _)) =>
      (db2, .error { status_code := 500, detail := "An unknown error occurred." })

/-- Endpoint POST /products/{product_id}/transactions (inventory.py lines
175-204): gated by get_current_user; the except clause catches only
ValueError (becoming a 400); any other exception, such as the constructor
TypeError, escapes to the app-level generic handler (main.py, error
handler for Exception), a 500 with detail "An unknown error occurred.". -/
def create_transaction (secret_key : String) (db : DB) (token : Option Jwt) (now : Nat)
    (product_id : Nat) (transaction : InventoryTransactionCreate) (txn_id : Nat) :
    DB × Except HttpError InventoryTransaction :=
  match resolve_user secret_key db token now with
  | .error e => (db, .error e)
  | .ok current_user =>
    match create_inventory_transaction db product_id transaction current_user.id txn_id with
    | (db2, .ok t) => (db2, .ok t)
    | (db2, .error (.valueError m)) => (db2, .error { status_code := 400, detail := m })
    | (db2, .error (.typeError _)) =>
      (db2, .error { status_code := 500, detail := "An unknown error occurred." })

/-- Endpoint GET /products/{product_id}/transactions/{transaction_id}
(inventory.py lines 230-256): no auth dependency; answers 404 only when the
value returned by the service is falsy, and otherwise returns that value
as the response body. -/
def read_transaction (db : DB) (product_id : Nat) (transaction_id : Nat) :
    Except HttpError (Query InventoryTransaction) :=
  let transaction := get_inventory_transaction db product_id transaction_id
  if !transaction.pyTruthy then
    .error { status_code := 404, detail := "Stock movement not found" }
  else
    .ok transaction

/-- Endpoint PUT /products/categories/{category_id} (inventory.py lines
337-364): its signature declares no current_user dependency, so the handler
runs the service directly; a service ValueError becomes a 404. -/
def update_existing_category (db : DB) (category_id : Nat) (category : CategoryCreate) :
    DB × Except HttpError Category :=
  match update_category db category_id category with
  | (db2, .ok c) => (db2, .ok c)
  | (db2, .error (.valueError m)) => (db2, .error { status_code := 404, detail := m })
  | (db2, .error (.typeError _)) =>
    (db2, .error { status_code := 500, detail := "An unknown error occurred." })

/-- Endpoint DELETE /products/categories/{category_id} (inventory.py lines
367-392): its signature declares no current_user dependency, so the handler
runs the service directly; a service ValueError becomes a 404. -/
def delete_existing_category (db : DB) (category_id : Nat) : DB × Except HttpError Category :=
  match delete_category db category_id with
  | (db2, .ok c) => (db2, .ok c)
  | (db2, .error (.valueError m)) => (db2, .error { status_code := 404, detail := m })
  | (db2, .error (.typeError _)) =>
    (db2, .error { status_code := 500, detail := "An unknown error occurred." })

/-- A concrete store used to evaluate the ledger path: one product
(id 1, "Hammer") with stock 5, no users, categories or transactions. -/
def hammerDB : DB :=
  { users := []
    categories := []
    products := [{ id := 1, name := "Hammer", description := none, price := 10,
                   stock_quantity := 5, image_url := none, category_id := 3,
                   user_id := 7 }]
    transactions := [] }

/-- C1: at a store holding product 1 with stock 5, recording an entry of
3, an exit of 3 and an exit of 9 each fail with the TypeError from the
invalid user_id keyword, raised before any row insert or stock change: the
store is returned unchanged and the stored stock stays 5 in all three
cases, so no entry increases the stock, no exit decreases it, and the
insufficient-stock ValueError is never reached. -/
theorem record_transaction_typeerror_no_stock_change :
    create_inventory_transaction hammerDB 1
        { product_id := 1, type := "entry", quantity := 3, description := none } 7 10
      = (hammerDB, .error (.typeError
          "user_id is an invalid keyword argument for InventoryTransaction")) ∧
    create_inventory_transaction hammerDB 1
        { product_id := 1, type := "exit", quantity := 3, description := none } 7 11
      = (hammerDB, .error (.typeError
          "user_id is an invalid keyword argument for InventoryTransaction")) ∧
    create_inventory_transaction hammerDB 1
        { product_id := 1, type := "exit", quantity := 9, description := none } 7 12
      = (hammerDB, .error (.typeError
          "user_id is an invalid keyword argument for InventoryTransaction")) ∧
    hammerDB.stockOf 1 = some 5 := by
  exact ⟨rfl, rfl, rfl, rfl⟩

/-- C2: no inventory transaction ever commits: every call to the record
operation returns the store exactly as it was and never returns a row —
the call fails with "Product not found" when the product is missing and
with the constructor TypeError (raised before db.add) when it exists.  In
particular every stock that was non-negative is untouched, but only
because the intended stock adjustments are unreachable. -/
theorem no_transaction_ever_commits (db : DB) (pid uid tid : Nat)
    (t : InventoryTransactionCreate) :
    (create_inventory_transaction db pid t uid tid).1 = db ∧
    ((create_inventory_transaction db pid t uid tid).2).isOk = false := by
  unfold create_inventory_transaction
  cases hf : db.findProduct pid with
  | none => exact ⟨rfl, rfl⟩
  | some p => exact ⟨rfl, rfl⟩

/-- C3: an exit of 9 against stock 5 leaves no phantom row: the call fails
with the constructor TypeError raised before db.add, so the ledger stays
empty, the error is not the insufficient-stock ValueError the claim names,
and the stored stock is untouched. -/
theorem failed_exit_leaves_no_phantom_row :
    (create_inventory_transaction hammerDB 1
        { product_id := 1, type := "exit", quantity := 9, description := none } 7 10).2
      = .error (.typeError
          "user_id is an invalid keyword argument for InventoryTransaction") ∧
    (create_inventory_transaction hammerDB 1
        { product_id := 1, type := "exit", quantity := 9, description := none } 7 10).2
      ≠ .error (.valueError "Insufficient stock quantity") ∧
    (create_inventory_transaction hammerDB 1
        { product_id := 1, type := "exit", quantity := 9, description := none } 7 10).1.transactions
      = [] ∧
    (create_inventory_transaction hammerDB 1
        { product_id := 1, type := "exit", quantity := 9, description := none } 7 10).1.stockOf 1
      = some 5 := by
  refine ⟨rfl, ?_, rfl, rfl⟩
  intro hcon
  exact ServiceError.noConfusion (Except.error.inj hcon)

/-- C4: no exit ever reaches the stock read-modify-write, so there is
nothing for concurrent exits to race on: at stock 5, two exits of 5 each
(sum 10 > 5) both fail with the constructor TypeError whatever their
interleaving — each request crashes before db.add in its own session with
no store effect, so their composition leaves the store as it began:
neither exit succeeds (instead of exactly one, as the claim requires), no
ledger row is written, and the stored stock stays 5. -/
theorem concurrent_exits_never_reach_stock :
    (create_inventory_transaction hammerDB 1
        { product_id := 1, type := "exit", quantity := 5, description := none } 7 1).2
      = .error (.typeError
          "user_id is an invalid keyword argument for InventoryTransaction") ∧
    (create_inventory_transaction
        (create_inventory_transaction hammerDB 1
          { product_id := 1, type := "exit", quantity := 5, description := none } 7 1).1
        1 { product_id := 1, type := "exit", quantity := 5, description := none } 8 2).2
      = .error (.typeError
          "user_id is an invalid keyword argument for InventoryTransaction") ∧
    (create_inventory_transaction
        (create_inventory_transaction hammerDB 1
          { product_id := 1, type := "exit", quantity := 5, description := none } 7 1).1
        1 { product_id := 1, type := "exit", quantity := 5, description := none } 8 2).1
      = hammerDB ∧
    hammerDB.stockOf 1 = some 5 ∧
    hammerDB.transactions = [] := by
  exact ⟨rfl, rfl, rfl, rfl, rfl⟩

/-- C5: the service returns the unexecuted query (no terminal fetch), and a
Query object is truthy, so for a product/transaction pair with no matching
ledger row the endpoint does not answer 404 as documented: it returns the
empty query as the 200 body. -/
theorem read_transaction_missing_row_not_404 :
    read_transaction { users := [], categories := [], products := [], transactions := [] } 1 1
      = .ok { rows := [] } ∧
    read_transaction { users := [], categories := [], products := [], transactions := [] } 1 1
      ≠ .error { status_code := 404, detail := "Stock movement not found" } := by
  refine ⟨rfl, ?_⟩
  intro hcon
  exact Except.noConfusion hcon

/-- C6: every mutating product or transaction endpoint is gated on
resolving a bearer token to a user, answering exactly the resolution
failure and leaving the store untouched when that fails; the category
update and delete endpoints take no token at all and execute the service
for any caller. -/
theorem mutating_auth_gate (k : String) (db : DB) (tok : Option Jwt) (now : Nat)
    (e : HttpError) (prod : ProductCreate) (pid nid tid cid : Nat)
    (t : InventoryTransactionCreate) (cat : CategoryCreate) (c : Category) :
    (resolve_user k db tok now = .error e →
      create_new_product k db tok now prod nid = (db, .error e) ∧
      update_existing_product k db tok now pid prod = (db, .error e) ∧
      delete_existing_product k db tok now pid = (db, .error e) ∧
      create_transaction k db tok now pid t tid = (db, .error e)) ∧
    (db.findCategory cid = some c →
      (update_existing_category db cid cat).2
        = .ok { c with name := cat.name, description := cat.description } ∧
      (delete_existing_category db cid).2 = .ok c) := by
  constructor
  · intro h
    refine ⟨?_, ?_, ?_, ?_⟩
    · unfold create_new_product
      rw [h]
    · unfold update_existing_product
      rw [h]
    · unfold delete_existing_product
      rw [h]
    · unfold create_transaction
      rw [h]
  · intro h
    constructor
    · unfold update_existing_category update_category
      rw [h]
    · unfold delete_existing_category delete_category
      rw [h]

/-- Witness for mutating_auth_gate: with no bearer token the product-create
endpoint answers 401 and leaves the store unchanged, while category delete
succeeds with no authenticated caller. -/
theorem mutating_auth_gate_witness :
    create_new_product "k"
        { users := [], categories := [{ id := 3, name := "Tools", description := none }],
          products := [], transactions := [] }
        none 0
        { name := "N", description := none, price := 1, stock_quantity := 1,
          image_url := none, category_id := 3, user_id := 7 } 99
      = ({ users := [], categories := [{ id := 3, name := "Tools", description := none }],
           products := [], transactions := [] },
         .error { status_code := 401, detail := "Not authenticated" }) ∧
    (delete_existing_category
        { users := [], categories := [{ id := 3, name := "Tools", description := none }],
          products := [], transactions := [] } 3).2
      = .ok { id := 3, name := "Tools", description := none } := by
  have h := mutating_auth_gate "k"
    { users := [], categories := [{ id := 3, name := "Tools", description := none }],
      products := [], transactions := [] }
    none 0 { status_code := 401, detail := "Not authenticated" }
    { name := "N", description := none, price := 1, stock_quantity := 1,
      image_url := none, category_id := 3, user_id := 7 }
    0 99 0 3
    { product_id := 0, type := "entry", quantity := 1, description := none }
    { name := "X", description := none }
    { id := 3, name := "Tools", description := none }
  exact ⟨(h.1 rfl).1, (h.2 rfl).2⟩

/-- C7: authentication succeeds exactly when a user with the email exists
and the password verifies against the stored hash, and whenever it fails
(unknown email or non-verifying password alike) the login endpoint answers
one and the same 401 error, revealing nothing about which factor failed. -/
theorem authenticate_iff_and_uniform_failure (verify : String → String → Bool)
    (k : String) (db : DB) (email password : String) (now : Nat) :
    ((authenticate_user verify db email password).isSome = true ↔
      ∃ u, db.findUserByEmail email = some u ∧ verify password u.password = true) ∧
    (authenticate_user verify db email password = none →
      login_for_access_token k verify db email password now
        = .error { status_code := 401, detail := "Incorrect email or password" }) := by
  constructor
  · unfold authenticate_user
    cases hfind : db.findUserByEmail email with
    | none => simp
    | some u =>
      cases hv : verify password u.password with
      | false => simp [hv]
      | true => simp [hv]
  · intro h
    unfold login_for_access_token
    rw [h]

/-- Witness for authenticate_iff_and_uniform_failure: on an empty user
table the login endpoint answers the uniform 401. -/
theorem authenticate_iff_and_uniform_failure_witness :
    login_for_access_token "k" (fun a b => a == b)
        { users := [], categories := [], products := [], transactions := [] }
        "a@x" "pw" 0
      = .error { status_code := 401, detail := "Incorrect email or password" } := by
  exact (authenticate_iff_and_uniform_failure (fun a b => a == b) "k"
    { users := [], categories := [], products := [], transactions := [] }
    "a@x" "pw" 0).2 rfl

/-- C8: the login flow issues a token whose subject claim is the user's
email and whose expiry is the issuing time plus 30 minutes, and
create_access_token without an explicit delta expires at the issuing time
plus 15 minutes. -/
theorem issue_token_expiry_and_subject (k : String) (verify : String → String → Bool)
    (db : DB) (email password : String) (now : Nat) (u : User)
    (data : List (String × String)) :
    (authenticate_user verify db email password = some u →
      login_for_access_token k verify db email password now
        = .ok { claims := [("sub", u.email)], exp := now + 30 * 60, key := k }) ∧
    create_access_token k data now none = { claims := data, exp := now + 15 * 60, key := k } := by
  constructor
  · intro h
    unfold login_for_access_token
    rw [h]
    rfl
  · rfl

/-- Witness for issue_token_expiry_and_subject: a successful login at time
100 yields a token with subject the user's email and expiry 1900. -/
theorem issue_token_expiry_and_subject_witness :
    login_for_access_token "k" (fun a b => a == b)
        { users := [{ id := 7, name := "A", email := "a@x", password := "pw" }],
          categories := [], products := [], transactions := [] }
        "a@x" "pw" 100
      = .ok { claims := [("sub", "a@x")], exp := 1900, key := "k" } := by
  exact (issue_token_expiry_and_subject "k" (fun a b => a == b)
    { users := [{ id := 7, name := "A", email := "a@x", password := "pw" }],
      categories := [], products := [], transactions := [] }
    "a@x" "pw" 100
    { id := 7, name := "A", email := "a@x", password := "pw" } []).1 rfl

/-- C9: when the product exists the update overwrites every mutable field
with the supplied values and succeeds; the result is the same whatever the
categories table holds (category_id is not re-validated); and when the
product id is unknown the call fails with the not-found ValueError and the
store is unchanged. -/
theorem update_product_spec (db : DB) (pid : Nat) (prod : ProductCreate)
    (p0 : Product) (cs : List Category) :
    (db.findProduct pid = some p0 →
      update_product db pid prod
        = (db.writeProduct pid
            { p0 with
              name := prod.name
              description := prod.description
              price := prod.price
              stock_quantity := prod.stock_quantity
              image_url := prod.image_url
              category_id := prod.category_id },
           .ok
            { p0 with
              name := prod.name
              description := prod.description
              price := prod.price
              stock_quantity := prod.stock_quantity
              image_url := prod.image_url
              category_id := prod.category_id })) ∧
    (update_product { db with categories := cs } pid prod
        = ({ (update_product db pid prod).1 with categories := cs },
           (update_product db pid prod).2)) ∧
    (db.findProduct pid = none →
      update_product db pid prod = (db, .error (.valueError "Product not found"))) := by
  refine ⟨?_, ?_, ?_⟩
  · intro h
    unfold update_product
    rw [h]
  · unfold update_product DB.findProduct
    dsimp only
    cases h : db.products.find? (fun p => p.id == pid) with
    | none => rfl
    | some q => rfl
  · intro h
    unfold update_product
    rw [h]

/-- Witness for update_product_spec: updating product 1 replaces all its
mutable fields with the supplied values even though the supplied
category_id (42) matches no category. -/
theorem update_product_spec_witness :
    update_product
        { users := [], categories := [],
          products := [{ id := 1, name := "Hammer", description := none, price := 10,
                         stock_quantity := 5, image_url := none, category_id := 3,
                         user_id := 7 }],
          transactions := [] }
        1
        { name := "Sledge", description := some "big", price := 20, stock_quantity := 9,
          image_url := none, category_id := 42, user_id := 7 }
      = ({ users := [], categories := [],
           products := [{ id := 1, name := "Sledge", description := some "big", price := 20,
                          stock_quantity := 9, image_url := none, category_id := 42,
                          user_id := 7 }],
           transactions := [] },
         .ok { id := 1, name := "Sledge", description := some "big", price := 20,
               stock_quantity := 9, image_url := none, category_id := 42, user_id := 7 }) := by
  have h := (update_product_spec
    { users := [], categories := [],
      products := [{ id := 1, name := "Hammer", description := none, price := 10,
                     stock_quantity := 5, image_url := none, category_id := 3,
                     user_id := 7 }],
      transactions := [] }
    1
    { name := "Sledge", description := some "big", price := 20, stock_quantity := 9,
      image_url := none, category_id := 42, user_id := 7 }
    { id := 1, name := "Hammer", description := none, price := 10,
      stock_quantity := 5, image_url := none, category_id := 3, user_id := 7 }
    []).1 rfl
  rw [h]
  rfl

/-- C10: the type field is indeed an unconstrained string at the
validation boundary (the schema accepts any type, and the service has no
else-branch validation), but a transaction of type "adjust" against an
existing product is not persisted or returned: like every other type it
fails with the constructor TypeError before db.add, the store coming back
exactly as it was. -/
theorem unknown_type_transaction_typeerror :
    InventoryTransactionCreate.validated
        { product_id := 1, type := "adjust", quantity := 4, description := none } = true ∧
    create_inventory_transaction hammerDB 1
        { product_id := 1, type := "adjust", quantity := 4, description := none } 7 10
      = (hammerDB, .error (.typeError
          "user_id is an invalid keyword argument for InventoryTransaction")) := by
  exact ⟨rfl, rfl⟩

end InventoryApi
